import Mathlib

/-!
Shallow embedding of the purelymail user-account reconciler
(`UserResource` with nested password-reset methods): the `Create`,
`Read`, `Update`, `Delete` lifecycle operations and the `readUser`
re-synchronization helper, modelled over an explicit API oracle that
maps each request to a transport error or an HTTP status plus an
optionally-decodable body.  Every Lean definition below is a direct
translation of the corresponding Go function.
-/

namespace Purelymail

/-- Terraform framework tri-state attribute value: null, unknown, or a
concrete value (`types.String` / `types.Bool` / `types.List`). -/
inductive Tf (α : Type) where
  | null : Tf α
  | unknown : Tf α
  | value : α → Tf α
  deriving DecidableEq

/-- `IsNull()`. -/
def Tf.isNull {α : Type} : Tf α → Bool
  | .null => true
  | _ => false

/-- `IsUnknown()`. -/
def Tf.isUnknown {α : Type} : Tf α → Bool
  | .unknown => true
  | _ => false

/-- `ValueString()`: the zero value `""` on null/unknown. -/
def Tf.valueString : Tf String → String
  | .value s => s
  | _ => ""

/-- `ValueBool()`: the zero value `false` on null/unknown. -/
def Tf.valueBool : Tf Bool → Bool
  | .value b => b
  | _ => false

/-- Go helper `valueStringPtr`. -/
def valueStringPtr (v : Tf String) : Option String :=
  if v.isNull || v.isUnknown then none else some v.valueString

/-- Go helper `valueBoolPtr`. -/
def valueBoolPtr (v : Tf Bool) : Option Bool :=
  if v.isNull || v.isUnknown then none else some v.valueBool

/-- `PasswordResetMethodModel`: one nested password-reset method. -/
structure PasswordResetMethodModel where
  type : Tf String
  target : Tf String
  description : Tf String
  allowMfaReset : Tf Bool
  deriving DecidableEq

/-- `UserResourceModel`: the Terraform data model of the user resource. -/
structure UserResourceModel where
  userName : Tf String
  newUserName : Tf String
  password : Tf String
  passwordWo : Tf String
  enableSearchIndexing : Tf Bool
  requireTwoFactorAuthentication : Tf Bool
  passwordResetMethods : Tf (List PasswordResetMethodModel)
  id : Tf String
  deriving DecidableEq

/-- `api.ModifyUserJSONRequestBody`. -/
structure ModifyUserBody where
  userName : String
  newUserName : Option String
  newPassword : Option String
  enableSearchIndexing : Option Bool
  enablePasswordReset : Option Bool
  requireTwoFactorAuthentication : Option Bool
  deriving DecidableEq

/-- A `ModifyUserJSONRequestBody` with only the user name set. -/
def emptyModify (u : String) : ModifyUserBody :=
  { userName := u, newUserName := none, newPassword := none,
    enableSearchIndexing := none, enablePasswordReset := none,
    requireTwoFactorAuthentication := none }

/-- `api.UpsertPasswordResetRequest`. -/
structure UpsertPasswordResetRequest where
  userName : String
  type : String
  target : String
  description : Option String
  allowMfaReset : Option Bool
  deriving DecidableEq

/-- `api.DeletePasswordResetRequest`. -/
structure DeletePasswordResetRequest where
  userName : String
  target : String
  deriving DecidableEq

/-- One request issued against the remote account API. -/
inductive ApiCall where
  | createUser (userName : String)
  | modifyUser (body : ModifyUserBody)
  | getUser (userName : String)
  | deleteUser (userName : String)
  | upsertPasswordResetMethod (body : UpsertPasswordResetRequest)
  | deletePasswordResetMethod (body : DeletePasswordResetRequest)
  | listPasswordResetMethods (userName : String)
  deriving DecidableEq

/-- Outcome of one HTTP exchange: a transport error (`err != nil`), or a
status code together with the decoded body (`none` when the body does
not decode as `β`). -/
inductive HttpResp (β : Type) where
  | transportError (msg : String)
  | ok (status : Nat) (body : Option β)
  deriving DecidableEq

/-- `api.GetUserResponse.Result`. -/
structure GetUserResult where
  enableSearchIndexing : Option Bool
  recoveryEnabled : Option Bool
  requireTwoFactorAuthentication : Option Bool
  deriving DecidableEq

/-- `api.GetUserResponse`. -/
structure GetUserResponse where
  result : Option GetUserResult
  deriving DecidableEq

/-- One entry of `api.ListPasswordResetResponse.Result.Users`. -/
structure ListMethodEntry where
  type : Option String
  target : Option String
  description : Option String
  allowMfaReset : Option Bool
  deriving DecidableEq

/-- `api.ListPasswordResetResponse.Result`. -/
structure ListPasswordResetResult where
  users : Option (List ListMethodEntry)
  deriving DecidableEq

/-- `api.ListPasswordResetResponse`. -/
structure ListPasswordResetResponse where
  result : Option ListPasswordResetResult
  deriving DecidableEq

/-- The remote account API, as an oracle mapping each request to its
response.  The reconciler is single-threaded and issues one call at a
time; the oracle abstracts the server each call is sent to. -/
structure Api where
  createUser : String → HttpResp Unit
  modifyUser : ModifyUserBody → HttpResp Unit
  getUser : String → HttpResp GetUserResponse
  deleteUser : String → HttpResp Unit
  upsertMethod : UpsertPasswordResetRequest → HttpResp Unit
  deleteMethod : DeletePasswordResetRequest → HttpResp Unit
  listMethods : String → HttpResp ListPasswordResetResponse

/-- Diagnostic severity: `AddError` vs `AddWarning`. -/
inductive Severity where
  | fatal
  | warning
  deriving DecidableEq

/-- One entry of `resp.Diagnostics`. -/
structure Diag where
  severity : Severity
  summary : String
  detail : String
  deriving DecidableEq

/-- `resp.Diagnostics.AddError("Client Error", ...)`. -/
def clientErr (detail : String) : Diag :=
  { severity := Severity.fatal, summary := "Client Error", detail := detail }

/-- `resp.Diagnostics.AddError("API Error", ...)`. -/
def apiErr (detail : String) : Diag :=
  { severity := Severity.fatal, summary := "API Error", detail := detail }

/-- Result of a Create/Update lifecycle operation: the ordered list of
API calls issued, the diagnostics reported, and the state recorded via
`resp.State.Set` (`none` when the operation aborted before setting it). -/
structure ConvergeResult where
  trace : List ApiCall
  diags : List Diag
  state : Option UserResourceModel
  deriving DecidableEq

/-- `ElementsAs` on the nested method list, guarded exactly as in the Go
code: null or unknown collections contribute no elements. -/
def methodsOf (d : UserResourceModel) : List PasswordResetMethodModel :=
  match d.passwordResetMethods with
  | .value l => l
  | _ => []

/-- `method.Target.ValueString()`: the key of a recovery method. -/
def methodTarget (m : PasswordResetMethodModel) : String :=
  Tf.valueString m.target

/-- The upsert request built for one method (`upsertReq` in Create and
Update, which build it identically). -/
def upsertReqOf (u : String) (m : PasswordResetMethodModel) : UpsertPasswordResetRequest :=
  { userName := u,
    type := Tf.valueString m.type,
    target := Tf.valueString m.target,
    description :=
      if !m.description.isNull && !m.description.isUnknown then
        some (Tf.valueString m.description)
      else none,
    allowMfaReset :=
      if !m.allowMfaReset.isNull && !m.allowMfaReset.isUnknown then
        some (Tf.valueBool m.allowMfaReset)
      else none }

/-- The upsert API call for one method. -/
def upsertCall (u : String) (m : PasswordResetMethodModel) : ApiCall :=
  ApiCall.upsertPasswordResetMethod (upsertReqOf u m)

/-- Outcome of executing a straight-line sequence of method calls:
either all succeeded, or the sequence aborted on the first failure. -/
inductive SeqOut where
  | aborted (calls : List ApiCall) (d : Diag)
  | done (calls : List ApiCall)
  deriving DecidableEq

/-- The calls issued by a (possibly aborted) call sequence. -/
def SeqOut.calls : SeqOut → List ApiCall
  | .aborted c _ => c
  | .done c => c

/-- The upsert loop (`for _, method := range methods`): one
`CreateOrUpdatePasswordResetMethod` call per method, aborting on the
first transport error or non-200 status.  `clientMsg`/`apiMsg` are the
diagnostic texts, which differ between Create and Update. -/
def runUpserts (api : Api) (u clientMsg apiMsg : String) :
    List PasswordResetMethodModel → SeqOut
  | [] => .done []
  | m :: rest =>
    let req := upsertReqOf u m
    match api.upsertMethod req with
    | .transportError msg =>
        .aborted [ApiCall.upsertPasswordResetMethod req] (clientErr (clientMsg ++ msg))
    | .ok code _ =>
        if code ≠ 200 then
          .aborted [ApiCall.upsertPasswordResetMethod req]
            (apiErr (apiMsg ++ " (status: " ++ toString code ++ ")"))
        else
          match runUpserts api u clientMsg apiMsg rest with
          | .aborted tr d => .aborted (ApiCall.upsertPasswordResetMethod req :: tr) d
          | .done tr => .done (ApiCall.upsertPasswordResetMethod req :: tr)

/-- The delete loop of `Update` step 3 (`for _, method := range
stateMethods`): a `DeletePasswordResetMethod` call for every observed
method whose target is absent from `planTargets`. -/
def runDeletes (api : Api) (u : String) (planTargets : List String) :
    List PasswordResetMethodModel → SeqOut
  | [] => .done []
  | m :: rest =>
    if planTargets.contains (methodTarget m) then
      runDeletes api u planTargets rest
    else
      let req : DeletePasswordResetRequest := { userName := u, target := methodTarget m }
      match api.deleteMethod req with
      | .transportError msg =>
          .aborted [ApiCall.deletePasswordResetMethod req]
            (clientErr ("Unable to delete password reset method: " ++ msg))
      | .ok code _ =>
          if code ≠ 200 then
            .aborted [ApiCall.deletePasswordResetMethod req]
              (apiErr ("Failed to delete password reset method (status: " ++ toString code ++ ")"))
          else
            match runDeletes api u planTargets rest with
            | .aborted tr d => .aborted (ApiCall.deletePasswordResetMethod req :: tr) d
            | .done tr => .done (ApiCall.deletePasswordResetMethod req :: tr)

/-- `readUser`'s update of the account attributes from a decoded
`GetUserResponse` (missing fields default to `false`). -/
def applyGetUser (data : UserResourceModel) (resp : GetUserResponse) : UserResourceModel :=
  match resp.result with
  | some r =>
    { data with
      enableSearchIndexing := Tf.value (r.enableSearchIndexing.getD false),
      requireTwoFactorAuthentication := Tf.value (r.requireTwoFactorAuthentication.getD false) }
  | none =>
    { data with
      enableSearchIndexing := Tf.value false,
      requireTwoFactorAuthentication := Tf.value false }

/-- Conversion of one listed method to the Terraform model, with the Go
zero value (null) for absent type/target, explicit null for an absent
description, and `false` for an absent allow-MFA-reset flag. -/
def methodFromEntry (e : ListMethodEntry) : PasswordResetMethodModel :=
  { type := match e.type with | some t => Tf.value t | none => Tf.null,
    target := match e.target with | some t => Tf.value t | none => Tf.null,
    description := match e.description with | some s => Tf.value s | none => Tf.null,
    allowMfaReset := match e.allowMfaReset with | some b => Tf.value b | none => Tf.value false }

/-- `readUser`'s update of the nested method list from a decoded
`ListPasswordResetResponse`: a non-empty list is stored as a value, an
empty or absent list as null. -/
def applyList (data : UserResourceModel) (resp : ListPasswordResetResponse) : UserResourceModel :=
  match resp.result with
  | some r =>
    match r.users with
    | some users =>
        let models := users.map methodFromEntry
        if models.length > 0 then { data with passwordResetMethods := Tf.value models }
        else { data with passwordResetMethods := Tf.null }
    | none => { data with passwordResetMethods := Tf.null }
  | none => { data with passwordResetMethods := Tf.null }

/-- Outcome of `readUser`: an error return (with the data as mutated so
far), a not-found return `(false, nil)`, or a successful return
`(true, nil)` with the refreshed data. -/
inductive ReadUserOut where
  | fail (calls : List ApiCall) (msg : String) (data : UserResourceModel)
  | notFound (calls : List ApiCall) (data : UserResourceModel)
  | ok (calls : List ApiCall) (data : UserResourceModel)
  deriving DecidableEq

/-- The calls issued by `readUser`. -/
def ReadUserOut.calls : ReadUserOut → List ApiCall
  | .fail c _ _ => c
  | .notFound c _ => c
  | .ok c _ => c

/-- `UserResource.readUser`: fetch the account, then its password-reset
methods.  A 404 on the account fetch is the not-found outcome; a non-200
list status or an undecodable list body leaves the method list as-is. -/
def readUser (api : Api) (data : UserResourceModel) : ReadUserOut :=
  let u := Tf.valueString data.userName
  match api.getUser u with
  | .transportError msg =>
      .fail [ApiCall.getUser u] ("unable to read user: " ++ msg) data
  | .ok code body =>
    if code = 404 then .notFound [ApiCall.getUser u] data
    else if code ≠ 200 then
      .fail [ApiCall.getUser u] ("API returned status " ++ toString code) data
    else
      match body with
      | none => .fail [ApiCall.getUser u] "unable to decode user response" data
      | some resp =>
        let d1 := applyGetUser data resp
        match api.listMethods u with
        | .transportError msg =>
            .fail [ApiCall.getUser u, ApiCall.listPasswordResetMethods u]
              ("unable to list password reset methods: " ++ msg) d1
        | .ok lcode lbody =>
            let d2 :=
              if lcode = 200 then
                match lbody with
                | some lresp => applyList d1 lresp
                | none => d1
              else d1
            .ok [ApiCall.getUser u, ApiCall.listPasswordResetMethods u] d2

/-- Clearing the write-only fields before `resp.State.Set` (password and
new-user-name; `password_wo` stays in state). -/
def clearWriteOnly (d : UserResourceModel) : UserResourceModel :=
  { d with password := Tf.null, newUserName := Tf.null }

/-- The shared tail of Create and Update: read the user back, report a
read failure as a `Read Warning` (prefixed with `warnMsg`), clear the
write-only fields and set the state. -/
def readBackFinish (api : Api) (data : UserResourceModel) (warnMsg : String) : ConvergeResult :=
  match readUser api data with
  | .fail tr msg d =>
      { trace := tr,
        diags := [{ severity := Severity.warning, summary := "Read Warning",
                    detail := warnMsg ++ msg }],
        state := some (clearWriteOnly d) }
  | .notFound tr d => { trace := tr, diags := [], state := some (clearWriteOnly d) }
  | .ok tr d => { trace := tr, diags := [], state := some (clearWriteOnly d) }

/-- The combined modify request built by `Create` (password preferring
`password_wo`, then search indexing; 2FA deliberately excluded), paired
with the `hasModifications` flag. -/
def createModifyReq (data : UserResourceModel) : ModifyUserBody × Bool :=
  let base := emptyModify (Tf.valueString data.userName)
  let s1 :=
    if !data.passwordWo.isNull && !data.passwordWo.isUnknown then
      ({ base with newPassword := valueStringPtr data.passwordWo }, true)
    else if !data.password.isNull && !data.password.isUnknown then
      ({ base with newPassword := valueStringPtr data.password }, true)
    else (base, false)
  if !data.enableSearchIndexing.isNull then
    ({ s1.1 with enableSearchIndexing := valueBoolPtr data.enableSearchIndexing }, true)
  else s1

/-- `Create` step 3 guard: enable 2FA if requested. -/
def createEnableCond (data : UserResourceModel) : Bool :=
  !data.requireTwoFactorAuthentication.isNull &&
    Tf.valueBool data.requireTwoFactorAuthentication

/-- The 2FA-toggle modify request (`enable2FAReq` / the Create enable
request): only the user name and the desired 2FA flag are set. -/
def enableBody (data : UserResourceModel) : ModifyUserBody :=
  { emptyModify (Tf.valueString data.userName) with
    requireTwoFactorAuthentication := valueBoolPtr data.requireTwoFactorAuthentication }

/-- `Create` step 4: `data.Id = data.UserName`, read back, warn on
failure, clear write-only fields, set state. -/
def createFinish (api : Api) (data : UserResourceModel) : ConvergeResult :=
  readBackFinish api { data with id := data.userName }
    "Created user but unable to read back: "

/-- `Create` step 3: issue the 2FA-enable call if requested, after the
password-reset methods were configured. -/
def createEnable (api : Api) (data : UserResourceModel) : ConvergeResult :=
  if createEnableCond data then
    let body := enableBody data
    match api.modifyUser body with
    | .transportError msg =>
        { trace := [ApiCall.modifyUser body],
          diags := [clientErr ("Unable to enable 2FA: " ++ msg)], state := none }
    | .ok code _ =>
        if code ≠ 200 then
          { trace := [ApiCall.modifyUser body],
            diags := [apiErr ("Failed to enable 2FA (status: " ++ toString code ++ ")")],
            state := none }
        else
          let r := createFinish api data
          { trace := ApiCall.modifyUser body :: r.trace, diags := r.diags, state := r.state }
  else createFinish api data

/-- `Create` step 2: upsert every configured password-reset method,
then continue with the 2FA-enable step. -/
def createMethods (api : Api) (data : UserResourceModel) : ConvergeResult :=
  let u := Tf.valueString data.userName
  match runUpserts api u "Unable to create password reset method: "
      "Failed to create password reset method" (methodsOf data) with
  | .aborted tr d => { trace := tr, diags := [d], state := none }
  | .done tr =>
      let r := createEnable api data
      { trace := tr ++ r.trace, diags := r.diags, state := r.state }

/-- `UserResource.Create`: create the account, apply the combined
initial settings (without 2FA), upsert the methods, enable 2FA last,
then read back. -/
def Create (api : Api) (data : UserResourceModel) : ConvergeResult :=
  let u := Tf.valueString data.userName
  match api.createUser u with
  | .transportError msg =>
      { trace := [ApiCall.createUser u],
        diags := [clientErr ("Unable to create user: " ++ msg)], state := none }
  | .ok code _ =>
    if code ≠ 200 then
      { trace := [ApiCall.createUser u],
        diags := [apiErr ("Failed to create user (status: " ++ toString code ++ ")")],
        state := none }
    else
      let mr := createModifyReq data
      if mr.2 then
        match api.modifyUser mr.1 with
        | .transportError msg =>
            { trace := [ApiCall.createUser u, ApiCall.modifyUser mr.1],
              diags := [clientErr ("Unable to modify user: " ++ msg)], state := none }
        | .ok mcode _ =>
          if mcode ≠ 200 then
            { trace := [ApiCall.createUser u, ApiCall.modifyUser mr.1],
              diags := [apiErr ("Failed to modify user (status: " ++ toString mcode ++ ")")],
              state := none }
          else
            let r := createMethods api data
            { trace := ApiCall.createUser u :: ApiCall.modifyUser mr.1 :: r.trace,
              diags := r.diags, state := r.state }
      else
        let r := createMethods api data
        { trace := ApiCall.createUser u :: r.trace, diags := r.diags, state := r.state }

/-- `Update` step 1 guard: 2FA is being turned off (observed flag set
and true, desired flag set and not true). -/
def disableCond (data state : UserResourceModel) : Bool :=
  !state.requireTwoFactorAuthentication.isNull &&
  Tf.valueBool state.requireTwoFactorAuthentication &&
  !data.requireTwoFactorAuthentication.isNull &&
  !(Tf.valueBool data.requireTwoFactorAuthentication)

/-- The 2FA-disable modify request of `Update` step 1. -/
def disableBody (data state : UserResourceModel) : ModifyUserBody :=
  { emptyModify (Tf.valueString state.userName) with
    requireTwoFactorAuthentication := valueBoolPtr data.requireTwoFactorAuthentication }

/-- The rename guard used twice by `Update`: a non-null new user name
whose string differs from the current one. -/
def renameCond (data state : UserResourceModel) : Bool :=
  !data.newUserName.isNull &&
    Tf.valueString data.newUserName != Tf.valueString state.userName

/-- The combined modify request of `Update` step 2 (rename, password
preferring `password_wo`, search indexing) with `hasModifications`. -/
def updateModifyReq (data state : UserResourceModel) : ModifyUserBody × Bool :=
  let base := emptyModify (Tf.valueString state.userName)
  let s1 :=
    if renameCond data state then
      ({ base with newUserName := valueStringPtr data.newUserName }, true)
    else (base, false)
  let s2 :=
    if !data.passwordWo.isNull && !data.passwordWo.isUnknown then
      ({ s1.1 with newPassword := valueStringPtr data.passwordWo }, true)
    else if !data.password.isNull && !data.password.isUnknown then
      ({ s1.1 with newPassword := valueStringPtr data.password }, true)
    else s1
  if !data.enableSearchIndexing.isNull then
    ({ s2.1 with enableSearchIndexing := valueBoolPtr data.enableSearchIndexing }, true)
  else s2

/-- The plan data after `Update` applies the rename to its local copy
(`data.UserName = data.NewUserName; data.Id = ...`). -/
def dataAfterRename (data state : UserResourceModel) : UserResourceModel :=
  if renameCond data state then
    { data with userName := data.newUserName, id := data.newUserName }
  else { data with id := data.userName }

/-- `Update` step 4 guard: 2FA is being turned on (observed flag false
or absent, desired flag set and true). -/
def enableCond (data state : UserResourceModel) : Bool :=
  (!state.requireTwoFactorAuthentication.isNull &&
   !(Tf.valueBool state.requireTwoFactorAuthentication) &&
   !data.requireTwoFactorAuthentication.isNull &&
   Tf.valueBool data.requireTwoFactorAuthentication) ||
  (state.requireTwoFactorAuthentication.isNull &&
   !data.requireTwoFactorAuthentication.isNull &&
   Tf.valueBool data.requireTwoFactorAuthentication)

/-- `Update` step 5: read back, warn on failure, clear write-only
fields, set state. -/
def updateFinish (api : Api) (data : UserResourceModel) : ConvergeResult :=
  readBackFinish api data "Updated user but unable to read back: "

/-- `Update` step 4: issue the 2FA-enable call if the flag is turning
on, after the method reconciliation.  `data` is the post-rename plan
data, `state` the prior state. -/
def updateEnable (api : Api) (data state : UserResourceModel) : ConvergeResult :=
  if enableCond data state then
    let body := enableBody data
    match api.modifyUser body with
    | .transportError msg =>
        { trace := [ApiCall.modifyUser body],
          diags := [clientErr ("Unable to enable 2FA: " ++ msg)], state := none }
    | .ok code _ =>
        if code ≠ 200 then
          { trace := [ApiCall.modifyUser body],
            diags := [apiErr ("Failed to enable 2FA (status: " ++ toString code ++ ")")],
            state := none }
        else
          let r := updateFinish api data
          { trace := ApiCall.modifyUser body :: r.trace, diags := r.diags, state := r.state }
  else updateFinish api data

/-- `Update` step 3: delete the observed methods whose targets left the
plan, then upsert every planned method, then continue with step 4. -/
def updateMethods (api : Api) (data state : UserResourceModel) : ConvergeResult :=
  let stateMethods := methodsOf state
  let planMethods := methodsOf data
  let planTargets := planMethods.map methodTarget
  let u := Tf.valueString data.userName
  match runDeletes api u planTargets stateMethods with
  | .aborted tr d => { trace := tr, diags := [d], state := none }
  | .done tr1 =>
    match runUpserts api u "Unable to upsert password reset method: "
        "Failed to upsert password reset method" planMethods with
    | .aborted tr2 d => { trace := tr1 ++ tr2, diags := [d], state := none }
    | .done tr2 =>
        let r := updateEnable api data state
        { trace := tr1 ++ tr2 ++ r.trace, diags := r.diags, state := r.state }

/-- `Update` step 2: the combined modify call (if any field is set),
then the local rename, then the method reconciliation. -/
def updateModify (api : Api) (data state : UserResourceModel) : ConvergeResult :=
  let mr := updateModifyReq data state
  if mr.2 then
    match api.modifyUser mr.1 with
    | .transportError msg =>
        { trace := [ApiCall.modifyUser mr.1],
          diags := [clientErr ("Unable to modify user: " ++ msg)], state := none }
    | .ok code _ =>
      if code ≠ 200 then
        { trace := [ApiCall.modifyUser mr.1],
          diags := [apiErr ("Failed to modify user (status: " ++ toString code ++ ")")],
          state := none }
      else
        let r := updateMethods api (dataAfterRename data state) state
        { trace := ApiCall.modifyUser mr.1 :: r.trace, diags := r.diags, state := r.state }
  else updateMethods api (dataAfterRename data state) state

/-- `UserResource.Update`: disable 2FA first if it is turning off, then
the combined modify, the method diff execution, the 2FA-enable call
last, then the read back. -/
def Update (api : Api) (data state : UserResourceModel) : ConvergeResult :=
  if disableCond data state then
    let body := disableBody data state
    match api.modifyUser body with
    | .transportError msg =>
        { trace := [ApiCall.modifyUser body],
          diags := [clientErr ("Unable to disable 2FA: " ++ msg)], state := none }
    | .ok code _ =>
      if code ≠ 200 then
        { trace := [ApiCall.modifyUser body],
          diags := [apiErr ("Failed to disable 2FA (status: " ++ toString code ++ ")")],
          state := none }
      else
        let r := updateModify api data state
        { trace := ApiCall.modifyUser body :: r.trace, diags := r.diags, state := r.state }
  else updateModify api data state

/-- Result of `UserResource.Read`: a fatal read error, removal of the
tracked resource (`resp.State.RemoveResource`), or the refreshed state. -/
inductive ReadResult where
  | errored (calls : List ApiCall) (diags : List Diag)
  | removed (calls : List ApiCall)
  | kept (calls : List ApiCall) (data : UserResourceModel)
  deriving DecidableEq

/-- The diagnostics reported by a `Read`. -/
def ReadResult.diags : ReadResult → List Diag
  | .errored _ ds => ds
  | .removed _ => []
  | .kept _ _ => []

/-- Whether a `Read` kept the resource and set the refreshed state. -/
def ReadResult.isKept : ReadResult → Bool
  | .kept _ _ => true
  | _ => false

/-- `UserResource.Read`: `readUser`, with an error surfaced as a fatal
`Read Error`, not-found as resource removal, and success as the
refreshed state with write-only fields cleared. -/
def Read (api : Api) (data : UserResourceModel) : ReadResult :=
  match readUser api data with
  | .fail tr msg _ =>
      .errored tr [{ severity := Severity.fatal, summary := "Read Error",
                     detail := "Unable to read user: " ++ msg }]
  | .notFound tr _ => .removed tr
  | .ok tr d => .kept tr (clearWriteOnly d)

/-- `UserResource.Delete`: the single delete-account call (password
reset methods are destroyed server-side, none is deleted individually). -/
def Delete (api : Api) (data : UserResourceModel) : List ApiCall × List Diag :=
  let u := Tf.valueString data.userName
  match api.deleteUser u with
  | .transportError msg =>
      ([ApiCall.deleteUser u], [clientErr ("Unable to delete user: " ++ msg)])
  | .ok code _ =>
    if code ≠ 200 then
      ([ApiCall.deleteUser u],
       [apiErr ("Failed to delete user (status: " ++ toString code ++ ")")])
    else ([ApiCall.deleteUser u], [])

/-- Which API calls mutate remote state (everything except the reads). -/
def isMutation : ApiCall → Bool
  | .createUser _ => true
  | .modifyUser _ => true
  | .deleteUser _ => true
  | .upsertPasswordResetMethod _ => true
  | .deletePasswordResetMethod _ => true
  | .getUser _ => false
  | .listPasswordResetMethods _ => false

/-- Which API calls touch the recovery-method collection. -/
def isMethodOp : ApiCall → Bool
  | .upsertPasswordResetMethod _ => true
  | .deletePasswordResetMethod _ => true
  | _ => false

/-- The target named by a method-level call, if any. -/
def methodOpTarget : ApiCall → Option String
  | .upsertPasswordResetMethod b => some b.target
  | .deletePasswordResetMethod b => some b.target
  | _ => none

/-- A modify-account call that turns the 2FA flag off. -/
def is2faDisable : ApiCall → Bool
  | .modifyUser b =>
      match b.requireTwoFactorAuthentication with
      | some false => true
      | _ => false
  | _ => false

/-- The user name the method reconciliation and enable call run under
(the plan user name after the local rename). -/
def postUserName (data state : UserResourceModel) : String :=
  Tf.valueString (dataAfterRename data state).userName

/-- The delete calls planned for the observed methods against the
planned target set. -/
def deleteCalls (u : String) (planTargets : List String)
    (stateMethods : List PasswordResetMethodModel) : List ApiCall :=
  (stateMethods.filter (fun m => !planTargets.contains (methodTarget m))).map
    (fun m => ApiCall.deletePasswordResetMethod { userName := u, target := methodTarget m })

/-- The ordered mutation calls `Update` issues when every mutation
succeeds: optional disable-first, optional combined modify, deletes,
upserts, optional enable-last. -/
def updateMutationPlan (data state : UserResourceModel) : List ApiCall :=
  let d2 := dataAfterRename data state
  let u := Tf.valueString d2.userName
  (if disableCond data state then [ApiCall.modifyUser (disableBody data state)] else []) ++
  (if (updateModifyReq data state).2 then [ApiCall.modifyUser (updateModifyReq data state).1] else []) ++
  deleteCalls u ((methodsOf d2).map methodTarget) (methodsOf state) ++
  (methodsOf d2).map (upsertCall u) ++
  (if enableCond d2 state then [ApiCall.modifyUser (enableBody d2)] else [])

/-- The ordered mutation calls `Create` issues when every mutation
succeeds: create, optional combined modify, upserts, optional
enable-last. -/
def createMutationPlan (data : UserResourceModel) : List ApiCall :=
  let u := Tf.valueString data.userName
  ApiCall.createUser u ::
  ((if (createModifyReq data).2 then [ApiCall.modifyUser (createModifyReq data).1] else []) ++
   (methodsOf data).map (upsertCall u) ++
   (if createEnableCond data then [ApiCall.modifyUser (enableBody data)] else []))

/-- An oracle on which every mutation call succeeds with status 200. -/
structure MutOk (api : Api) : Prop where
  createOk : ∀ u, api.createUser u = HttpResp.ok 200 none
  modifyOk : ∀ b, api.modifyUser b = HttpResp.ok 200 none
  upsertOk : ∀ b, api.upsertMethod b = HttpResp.ok 200 none
  deleteMethodOk : ∀ b, api.deleteMethod b = HttpResp.ok 200 none
  deleteUserOk : ∀ u, api.deleteUser u = HttpResp.ok 200 none

/-- A decoded account result with all flags present and false. -/
def okGetResult : GetUserResult :=
  { enableSearchIndexing := some false, recoveryEnabled := some false,
    requireTwoFactorAuthentication := some false }

/-- A decoded account body carrying `okGetResult`. -/
def okGetBody : GetUserResponse := { result := some okGetResult }

/-- An all-success oracle: every mutation returns 200, the account
fetch decodes with all flags false, the method list decodes empty. -/
def okApi : Api :=
  { createUser := fun _ => HttpResp.ok 200 none,
    modifyUser := fun _ => HttpResp.ok 200 none,
    getUser := fun _ => HttpResp.ok 200 (some okGetBody),
    deleteUser := fun _ => HttpResp.ok 200 none,
    upsertMethod := fun _ => HttpResp.ok 200 none,
    deleteMethod := fun _ => HttpResp.ok 200 none,
    listMethods := fun _ =>
      HttpResp.ok 200 (some { result := some { users := some [] } }) }

theorem mutOk_okApi : MutOk okApi :=
  ⟨fun _ => rfl, fun _ => rfl, fun _ => rfl, fun _ => rfl, fun _ => rfl⟩

/-- Mutations succeed but the re-fetch hits a transport error. -/
def failGetApi : Api :=
  { okApi with getUser := fun _ => HttpResp.transportError "boom" }

theorem mutOk_failGetApi : MutOk failGetApi :=
  ⟨fun _ => rfl, fun _ => rfl, fun _ => rfl, fun _ => rfl, fun _ => rfl⟩

/-- The account fetch succeeds but the method list returns status 500. -/
def badListApi : Api :=
  { okApi with listMethods := fun _ => HttpResp.ok 500 none }

/-- The account fetch returns 404. -/
def api404 : Api :=
  { okApi with getUser := fun _ => HttpResp.ok 404 none }

/-- A recovery method `email:a@r.com`. -/
def sampleMethod : PasswordResetMethodModel :=
  { type := Tf.value "email", target := Tf.value "a@r.com",
    description := Tf.null, allowMfaReset := Tf.value false }

/-- A snapshot of user `alice` with one recovery method and 2FA off. -/
def aliceState : UserResourceModel :=
  { userName := Tf.value "alice", newUserName := Tf.null, password := Tf.null,
    passwordWo := Tf.null, enableSearchIndexing := Tf.null,
    requireTwoFactorAuthentication := Tf.value false,
    passwordResetMethods := Tf.value [sampleMethod], id := Tf.value "alice" }

/-- A snapshot of user `alice` with everything optional null. -/
def aliceBare : UserResourceModel :=
  { userName := Tf.value "alice", newUserName := Tf.null, password := Tf.null,
    passwordWo := Tf.null, enableSearchIndexing := Tf.null,
    requireTwoFactorAuthentication := Tf.null,
    passwordResetMethods := Tf.null, id := Tf.null }

example :
    (Update okApi aliceState aliceState).trace =
      [upsertCall "alice" sampleMethod,
       ApiCall.getUser "alice", ApiCall.listPasswordResetMethods "alice"] := rfl

example :
    (Update okApi aliceBare aliceBare).trace =
      [ApiCall.getUser "alice", ApiCall.listPasswordResetMethods "alice"] := rfl

example :
    (Create okApi { aliceState with requireTwoFactorAuthentication := Tf.value true }).trace =
      [ApiCall.createUser "alice", upsertCall "alice" sampleMethod,
       ApiCall.modifyUser { emptyModify "alice" with requireTwoFactorAuthentication := some true },
       ApiCall.getUser "alice", ApiCall.listPasswordResetMethods "alice"] := rfl

example : Read api404 aliceState = ReadResult.removed [ApiCall.getUser "alice"] := rfl

example : (Delete okApi aliceState).1 = [ApiCall.deleteUser "alice"] := rfl

/-! Helper lemmas about the call sequences. -/

theorem filter_true_of_map {α : Type} (P : ApiCall → Bool) (f : α → ApiCall)
    (hf : ∀ a, P (f a) = true) (l : List α) : (l.map f).filter P = l.map f := by
  induction l with
  | nil => rfl
  | cons a t ih => simp [hf, ih]

theorem filter_false_of_map {α : Type} (P : ApiCall → Bool) (f : α → ApiCall)
    (hf : ∀ a, P (f a) = false) (l : List α) : (l.map f).filter P = [] := by
  induction l with
  | nil => rfl
  | cons a t ih => simp [hf, ih]

theorem map_filter_key {α β γ : Type} (f : α → β) (p : β → Bool) (g : β → γ) (l : List α) :
    (l.filter (fun a => p (f a))).map (fun a => g (f a)) = ((l.map f).filter p).map g := by
  induction l with
  | nil => rfl
  | cons a t ih =>
    by_cases h : p (f a) <;> simp [h, ih]

/-- Successful upsert loop: one call per method, in order. -/
theorem runUpserts_ok {api : Api} (h : ∀ b, api.upsertMethod b = HttpResp.ok 200 none)
    (u c a : String) (ms : List PasswordResetMethodModel) :
    runUpserts api u c a ms = SeqOut.done (ms.map (upsertCall u)) := by
  induction ms with
  | nil => rfl
  | cons m rest ih => simp [runUpserts, h, ih, upsertCall]

/-- Successful delete loop: exactly the planned delete calls, in order. -/
theorem runDeletes_ok {api : Api} (h : ∀ b, api.deleteMethod b = HttpResp.ok 200 none)
    (u : String) (pts : List String) (ms : List PasswordResetMethodModel) :
    runDeletes api u pts ms = SeqOut.done (deleteCalls u pts ms) := by
  induction ms with
  | nil => rfl
  | cons m rest ih =>
    by_cases hc : methodTarget m ∈ pts <;>
      simp [runDeletes, deleteCalls, hc, h, ih]

/-- Whatever the oracle does, the upsert loop only issues upsert calls. -/
theorem runUpserts_filter {P : ApiCall → Bool}
    (hP : ∀ b, P (ApiCall.upsertPasswordResetMethod b) = false)
    (api : Api) (u c a : String) (ms : List PasswordResetMethodModel) :
    (runUpserts api u c a ms).calls.filter P = [] := by
  induction ms with
  | nil => rfl
  | cons m rest ih =>
    cases hresp : api.upsertMethod (upsertReqOf u m) with
    | transportError msg => simp [runUpserts, hresp, SeqOut.calls, hP]
    | ok code body =>
      by_cases h2 : code = 200
      · subst h2
        cases hrec : runUpserts api u c a rest with
        | aborted tr d =>
          have ihh := ih
          rw [hrec] at ihh
          simp only [SeqOut.calls] at ihh
          simp [runUpserts, hresp, hrec, SeqOut.calls, hP, ihh]
        | done tr =>
          have ihh := ih
          rw [hrec] at ihh
          simp only [SeqOut.calls] at ihh
          simp [runUpserts, hresp, hrec, SeqOut.calls, hP, ihh]
      · simp [runUpserts, hresp, SeqOut.calls, hP, h2]

/-- Whatever the oracle does, the delete loop only issues delete calls. -/
theorem runDeletes_filter {P : ApiCall → Bool}
    (hP : ∀ b, P (ApiCall.deletePasswordResetMethod b) = false)
    (api : Api) (u : String) (pts : List String)
    (ms : List PasswordResetMethodModel) :
    (runDeletes api u pts ms).calls.filter P = [] := by
  induction ms with
  | nil => rfl
  | cons m rest ih =>
    by_cases hc : methodTarget m ∈ pts
    · simp [runDeletes, hc, ih]
    · cases hresp : api.deleteMethod { userName := u, target := methodTarget m } with
      | transportError msg => simp [runDeletes, hc, hresp, SeqOut.calls, hP]
      | ok code body =>
        by_cases h2 : code = 200
        · subst h2
          cases hrec : runDeletes api u pts rest with
          | aborted tr d =>
            have ihh := ih
            rw [hrec] at ihh
            simp only [SeqOut.calls] at ihh
            simp [runDeletes, hc, hresp, hrec, SeqOut.calls, hP, ihh]
          | done tr =>
            have ihh := ih
            rw [hrec] at ihh
            simp only [SeqOut.calls] at ihh
            simp [runDeletes, hc, hresp, hrec, SeqOut.calls, hP, ihh]
        · simp [runDeletes, hc, hresp, SeqOut.calls, hP, h2]

/-- `readUser` issues the account fetch, optionally followed by the
method list fetch, and nothing else. -/
theorem readUser_calls (api : Api) (d : UserResourceModel) :
    (readUser api d).calls = [ApiCall.getUser (Tf.valueString d.userName)] ∨
    (readUser api d).calls =
      [ApiCall.getUser (Tf.valueString d.userName),
       ApiCall.listPasswordResetMethods (Tf.valueString d.userName)] := by
  cases hg : api.getUser (Tf.valueString d.userName) with
  | transportError msg => left; simp [readUser, hg, ReadUserOut.calls]
  | ok code body =>
    by_cases h4 : code = 404
    · left; simp [readUser, hg, h4, ReadUserOut.calls]
    · by_cases h2 : code = 200
      · subst h2
        cases body with
        | none => left; simp [readUser, hg, h4, ReadUserOut.calls]
        | some resp =>
          cases hl : api.listMethods (Tf.valueString d.userName) with
          | transportError m => right; simp [readUser, hg, hl, h4, ReadUserOut.calls]
          | ok lcode lbody => right; simp [readUser, hg, hl, h4, ReadUserOut.calls]
      · left; simp [readUser, hg, h4, h2, ReadUserOut.calls]

theorem readUser_filter {P : ApiCall → Bool}
    (hg : ∀ u, P (ApiCall.getUser u) = false)
    (hl : ∀ u, P (ApiCall.listPasswordResetMethods u) = false)
    (api : Api) (d : UserResourceModel) :
    (readUser api d).calls.filter P = [] := by
  rcases readUser_calls api d with h | h <;> rw [h] <;> simp [hg, hl]

theorem readBackFinish_trace (api : Api) (d : UserResourceModel) (w : String) :
    (readBackFinish api d w).trace = (readUser api d).calls := by
  unfold readBackFinish
  cases readUser api d <;> rfl

/-! Decomposition of `Create` and `Update` on an oracle where every
mutation call succeeds: the trace is the planned mutation sequence
followed by the read-back calls, and diagnostics/state come from the
read-back step. -/

theorem dataAfterRename_methods (data state : UserResourceModel) :
    methodsOf (dataAfterRename data state) = methodsOf data := by
  unfold dataAfterRename
  split <;> rfl

theorem dataAfterRename_r2fa (data state : UserResourceModel) :
    (dataAfterRename data state).requireTwoFactorAuthentication =
      data.requireTwoFactorAuthentication := by
  unfold dataAfterRename
  split <;> rfl

theorem createEnable_ok {api : Api} (h : ∀ b, api.modifyUser b = HttpResp.ok 200 none)
    (data : UserResourceModel) :
    createEnable api data =
      { trace := (if createEnableCond data then [ApiCall.modifyUser (enableBody data)] else []) ++
                 (createFinish api data).trace,
        diags := (createFinish api data).diags,
        state := (createFinish api data).state } := by
  unfold createEnable
  by_cases hc : createEnableCond data
  · simp [hc, h]
  · simp [hc]

theorem createMethods_ok {api : Api}
    (hU : ∀ b, api.upsertMethod b = HttpResp.ok 200 none)
    (hM : ∀ b, api.modifyUser b = HttpResp.ok 200 none)
    (data : UserResourceModel) :
    createMethods api data =
      { trace := (methodsOf data).map (upsertCall (Tf.valueString data.userName)) ++
                 (if createEnableCond data then [ApiCall.modifyUser (enableBody data)] else []) ++
                 (createFinish api data).trace,
        diags := (createFinish api data).diags,
        state := (createFinish api data).state } := by
  simp only [createMethods]
  rw [runUpserts_ok hU]
  simp [createEnable_ok hM, List.append_assoc]

theorem create_ok_decomp {api : Api} (h : MutOk api) (data : UserResourceModel) :
    Create api data =
      { trace := createMutationPlan data ++ (createFinish api data).trace,
        diags := (createFinish api data).diags,
        state := (createFinish api data).state } := by
  simp only [Create, createMutationPlan]
  rw [h.createOk]
  by_cases hm : (createModifyReq data).2
  · simp [hm, h.modifyOk, createMethods_ok h.upsertOk h.modifyOk, List.append_assoc]
  · simp [hm, createMethods_ok h.upsertOk h.modifyOk, List.append_assoc]

theorem updateEnable_ok {api : Api} (h : ∀ b, api.modifyUser b = HttpResp.ok 200 none)
    (data state : UserResourceModel) :
    updateEnable api data state =
      { trace := (if enableCond data state then [ApiCall.modifyUser (enableBody data)] else []) ++
                 (updateFinish api data).trace,
        diags := (updateFinish api data).diags,
        state := (updateFinish api data).state } := by
  unfold updateEnable
  by_cases hc : enableCond data state
  · simp [hc, h]
  · simp [hc]

theorem updateMethods_ok {api : Api}
    (hD : ∀ b, api.deleteMethod b = HttpResp.ok 200 none)
    (hU : ∀ b, api.upsertMethod b = HttpResp.ok 200 none)
    (hM : ∀ b, api.modifyUser b = HttpResp.ok 200 none)
    (data state : UserResourceModel) :
    updateMethods api data state =
      { trace := deleteCalls (Tf.valueString data.userName)
                   ((methodsOf data).map methodTarget) (methodsOf state) ++
                 (methodsOf data).map (upsertCall (Tf.valueString data.userName)) ++
                 (if enableCond data state then [ApiCall.modifyUser (enableBody data)] else []) ++
                 (updateFinish api data).trace,
        diags := (updateFinish api data).diags,
        state := (updateFinish api data).state } := by
  simp only [updateMethods]
  rw [runDeletes_ok hD, runUpserts_ok hU]
  simp [updateEnable_ok hM, List.append_assoc]

theorem updateModify_ok {api : Api}
    (_hD : ∀ b, api.deleteMethod b = HttpResp.ok 200 none)
    (_hU : ∀ b, api.upsertMethod b = HttpResp.ok 200 none)
    (hM : ∀ b, api.modifyUser b = HttpResp.ok 200 none)
    (data state : UserResourceModel) :
    updateModify api data state =
      { trace := (if (updateModifyReq data state).2 then
                    [ApiCall.modifyUser (updateModifyReq data state).1] else []) ++
                 (updateMethods api (dataAfterRename data state) state).trace,
        diags := (updateMethods api (dataAfterRename data state) state).diags,
        state := (updateMethods api (dataAfterRename data state) state).state } := by
  unfold updateModify
  by_cases hm : (updateModifyReq data state).2
  · simp [hm, hM]
  · simp [hm]

theorem update_ok_decomp {api : Api} (h : MutOk api) (data state : UserResourceModel) :
    Update api data state =
      { trace := updateMutationPlan data state ++
                 (updateFinish api (dataAfterRename data state)).trace,
        diags := (updateFinish api (dataAfterRename data state)).diags,
        state := (updateFinish api (dataAfterRename data state)).state } := by
  simp only [Update, updateMutationPlan]
  by_cases hd : disableCond data state
  · simp [hd, h.modifyOk, updateModify_ok h.deleteMethodOk h.upsertOk h.modifyOk,
          updateMethods_ok h.deleteMethodOk h.upsertOk h.modifyOk, List.append_assoc]
  · simp [hd, updateModify_ok h.deleteMethodOk h.upsertOk h.modifyOk,
          updateMethods_ok h.deleteMethodOk h.upsertOk h.modifyOk, List.append_assoc]

theorem filter_mut_modifyOpt (b : Bool) (x : ModifyUserBody) :
    (if b = true then [ApiCall.modifyUser x] else []).filter isMutation =
      (if b = true then [ApiCall.modifyUser x] else []) := by
  cases b <;> rfl

theorem filter_methodOp_modifyOpt (b : Bool) (x : ModifyUserBody) :
    (if b = true then [ApiCall.modifyUser x] else []).filter isMethodOp = [] := by
  cases b <;> rfl

theorem filter_mut_deleteCalls (u : String) (pts : List String)
    (ms : List PasswordResetMethodModel) :
    (deleteCalls u pts ms).filter isMutation = deleteCalls u pts ms :=
  filter_true_of_map _ _ (fun _ => rfl) _

theorem filter_mut_upserts (u : String) (ms : List PasswordResetMethodModel) :
    ((ms.map (upsertCall u)).filter isMutation) = ms.map (upsertCall u) :=
  filter_true_of_map _ _ (fun _ => rfl) _

theorem filter_methodOp_deleteCalls (u : String) (pts : List String)
    (ms : List PasswordResetMethodModel) :
    (deleteCalls u pts ms).filter isMethodOp = deleteCalls u pts ms :=
  filter_true_of_map _ _ (fun _ => rfl) _

theorem filter_methodOp_upserts (u : String) (ms : List PasswordResetMethodModel) :
    ((ms.map (upsertCall u)).filter isMethodOp) = ms.map (upsertCall u) :=
  filter_true_of_map _ _ (fun _ => rfl) _

/-- Every entry of the Update mutation plan is a mutation. -/
theorem updateMutationPlan_filter (data state : UserResourceModel) :
    (updateMutationPlan data state).filter isMutation = updateMutationPlan data state := by
  simp only [updateMutationPlan, List.filter_append]
  rw [filter_mut_modifyOpt, filter_mut_modifyOpt, filter_mut_modifyOpt,
      filter_mut_deleteCalls, filter_mut_upserts]

/-- Every entry of the Create mutation plan is a mutation. -/
theorem createMutationPlan_filter (data : UserResourceModel) :
    (createMutationPlan data).filter isMutation = createMutationPlan data := by
  simp only [createMutationPlan, List.filter_cons, List.filter_append]
  rw [filter_mut_modifyOpt, filter_mut_modifyOpt, filter_mut_upserts]
  simp [isMutation]

theorem updateFinish_filter {P : ApiCall → Bool}
    (hg : ∀ u, P (ApiCall.getUser u) = false)
    (hl : ∀ u, P (ApiCall.listPasswordResetMethods u) = false)
    (api : Api) (d : UserResourceModel) :
    (updateFinish api d).trace.filter P = [] := by
  unfold updateFinish
  rw [readBackFinish_trace]
  exact readUser_filter hg hl api d

theorem createFinish_filter {P : ApiCall → Bool}
    (hg : ∀ u, P (ApiCall.getUser u) = false)
    (hl : ∀ u, P (ApiCall.listPasswordResetMethods u) = false)
    (api : Api) (d : UserResourceModel) :
    (createFinish api d).trace.filter P = [] := by
  unfold createFinish
  rw [readBackFinish_trace]
  exact readUser_filter hg hl api _

/-- On a successful oracle the Update trace filtered to mutations is
exactly the planned mutation sequence. -/
theorem update_mut_filter {api : Api} (h : MutOk api) (data state : UserResourceModel) :
    (Update api data state).trace.filter isMutation = updateMutationPlan data state := by
  rw [update_ok_decomp h]
  simp only [List.filter_append]
  rw [updateFinish_filter (fun _ => rfl) (fun _ => rfl),
      updateMutationPlan_filter, List.append_nil]

/-- On a successful oracle the Create trace filtered to mutations is
exactly the planned mutation sequence. -/
theorem create_mut_filter {api : Api} (h : MutOk api) (data : UserResourceModel) :
    (Create api data).trace.filter isMutation = createMutationPlan data := by
  rw [create_ok_decomp h]
  simp only [List.filter_append]
  rw [createFinish_filter (fun _ => rfl) (fun _ => rfl),
      createMutationPlan_filter, List.append_nil]

/-- On a successful oracle the method-level calls of an Update are the
planned deletes followed by one upsert per planned method. -/
theorem update_method_ops {api : Api} (h : MutOk api) (data state : UserResourceModel) :
    (Update api data state).trace.filter isMethodOp =
      deleteCalls (postUserName data state)
        ((methodsOf data).map methodTarget) (methodsOf state) ++
      (methodsOf data).map (upsertCall (postUserName data state)) := by
  rw [update_ok_decomp h]
  simp only [List.filter_append]
  rw [updateFinish_filter (fun _ => rfl) (fun _ => rfl), List.append_nil]
  simp only [updateMutationPlan, List.filter_append]
  rw [filter_methodOp_modifyOpt, filter_methodOp_modifyOpt, filter_methodOp_modifyOpt,
      filter_methodOp_deleteCalls, filter_methodOp_upserts, dataAfterRename_methods]
  simp [postUserName]

/-! Claim theorems. -/

/-- Claim C6: every Converge-Delete issues exactly one API call, the
delete-account call for the tracked handle — in particular no
deleteRecoveryMethod call — regardless of how many recovery methods the
observed snapshot contains and of how the call turns out. -/
theorem delete_single_call (api : Api) (data : UserResourceModel) :
    (Delete api data).1 = [ApiCall.deleteUser (Tf.valueString data.userName)] := by
  cases hresp : api.deleteUser (Tf.valueString data.userName) with
  | transportError msg => simp [Delete, hresp]
  | ok code body => by_cases h2 : code = 200 <;> simp [Delete, hresp, h2]

/-- Claim C10: when both credential representations are set, the
combined modify request built by Create and by Update carries exactly
one credential, the retained `password_wo` value; the non-retained
`password` value is ignored. -/
theorem password_wo_preferred (data state : UserResourceModel) (w p : String)
    (hw : data.passwordWo = Tf.value w) (_hp : data.password = Tf.value p) :
    (createModifyReq data).1.newPassword = some w ∧
    (updateModifyReq data state).1.newPassword = some w := by
  constructor
  · unfold createModifyReq
    rw [hw]
    simp only [Tf.isNull, Tf.isUnknown, Bool.not_false, Bool.and_self, if_true]
    split_ifs <;> simp [valueStringPtr, Tf.isNull, Tf.isUnknown, Tf.valueString]
  · unfold updateModifyReq
    rw [hw]
    simp only [Tf.isNull, Tf.isUnknown, Bool.not_false, Bool.and_self, if_true]
    split_ifs <;> simp [valueStringPtr, Tf.isNull, Tf.isUnknown, Tf.valueString]

/-- User `alice` with both credential representations set. -/
def aliceBothPw : UserResourceModel :=
  { aliceBare with passwordWo := Tf.value "w1", password := Tf.value "p1" }

/-- Claim C10 witness at a concrete input. -/
theorem password_wo_preferred_witness :
    (createModifyReq aliceBothPw).1.newPassword = some "w1" ∧
    (updateModifyReq aliceBothPw aliceBare).1.newPassword = some "w1" :=
  password_wo_preferred aliceBothPw aliceBare "w1" "p1" rfl rfl

/-- Claim C3: on a run where every mutation call succeeds, the
method-level operations executed by Converge-Update are exactly one
delete for each target that is in the observed key list but not in the
desired key list, followed by one upsert for every desired method, with
all deletes ordered before all upserts.  The collections are keyed by
target (no duplicate keys). -/
theorem update_differ_contract (api : Api) (data state : UserResourceModel)
    (observed desired : List PasswordResetMethodModel)
    (h : MutOk api)
    (hobs : state.passwordResetMethods = Tf.value observed)
    (hdes : data.passwordResetMethods = Tf.value desired)
    (_hkObs : (observed.map methodTarget).Nodup)
    (_hkDes : (desired.map methodTarget).Nodup) :
    (Update api data state).trace.filter isMethodOp =
      ((observed.map methodTarget).filter
          (fun t => !((desired.map methodTarget).contains t))).map
        (fun t => ApiCall.deletePasswordResetMethod
          { userName := postUserName data state, target := t })
      ++ desired.map (upsertCall (postUserName data state)) := by
  rw [update_method_ops h]
  have hm1 : methodsOf data = desired := by simp [methodsOf, hdes]
  have hm2 : methodsOf state = observed := by simp [methodsOf, hobs]
  rw [hm1, hm2]
  unfold deleteCalls
  congr 1
  exact map_filter_key methodTarget
    (fun t => !((desired.map methodTarget).contains t))
    (fun t => ApiCall.deletePasswordResetMethod
      { userName := postUserName data state, target := t })
    observed

/-- Methods used by the differ witnesses. -/
def methodA : PasswordResetMethodModel :=
  { type := Tf.value "email", target := Tf.value "a@x.com",
    description := Tf.value "old", allowMfaReset := Tf.value false }

def methodA' : PasswordResetMethodModel :=
  { type := Tf.value "email", target := Tf.value "a@x.com",
    description := Tf.value "new", allowMfaReset := Tf.value false }

def methodB : PasswordResetMethodModel :=
  { type := Tf.value "email", target := Tf.value "b@x.com",
    description := Tf.null, allowMfaReset := Tf.value false }

def methodC : PasswordResetMethodModel :=
  { type := Tf.value "phone", target := Tf.value "555",
    description := Tf.null, allowMfaReset := Tf.value false }

/-- A snapshot of user `bob` holding the given method list. -/
def bobWith (ms : List PasswordResetMethodModel) : UserResourceModel :=
  { userName := Tf.value "bob", newUserName := Tf.null, password := Tf.null,
    passwordWo := Tf.null, enableSearchIndexing := Tf.null,
    requireTwoFactorAuthentication := Tf.value false,
    passwordResetMethods := Tf.value ms, id := Tf.value "bob" }

/-- Claim C3 witness: observed `[a, b]`, desired `[b, c]` gives one
delete (of `a`) followed by the two upserts. -/
theorem update_differ_contract_witness :
    (Update okApi (bobWith [methodB, methodC]) (bobWith [methodA, methodB])).trace.filter
        isMethodOp =
      (([methodA, methodB].map methodTarget).filter
          (fun t => !(([methodB, methodC].map methodTarget).contains t))).map
        (fun t => ApiCall.deletePasswordResetMethod
          { userName := postUserName (bobWith [methodB, methodC]) (bobWith [methodA, methodB]),
            target := t })
      ++ [methodB, methodC].map
          (upsertCall (postUserName (bobWith [methodB, methodC]) (bobWith [methodA, methodB]))) :=
  update_differ_contract okApi (bobWith [methodB, methodC]) (bobWith [methodA, methodB])
    [methodA, methodB] [methodB, methodC] mutOk_okApi rfl rfl (by decide) (by decide)

/-- Claim C8: a not-found on the account fetch makes Converge-Read
signal removal of the tracked entity — a distinct outcome, not an
error — and issue no further call (in particular no list call); a
transport error or any other non-success status is reported as a fatal
read error instead. -/
theorem read_notfound_distinct (api : Api) (d : UserResourceModel) :
    (∀ body, api.getUser (Tf.valueString d.userName) = HttpResp.ok 404 body →
       Read api d = ReadResult.removed [ApiCall.getUser (Tf.valueString d.userName)]) ∧
    (∀ msg, api.getUser (Tf.valueString d.userName) = HttpResp.transportError msg →
       Read api d = ReadResult.errored [ApiCall.getUser (Tf.valueString d.userName)]
         [{ severity := Severity.fatal, summary := "Read Error",
            detail := "Unable to read user: " ++ ("unable to read user: " ++ msg) }]) ∧
    (∀ code body, api.getUser (Tf.valueString d.userName) = HttpResp.ok code body →
       code ≠ 200 → code ≠ 404 →
       Read api d = ReadResult.errored [ApiCall.getUser (Tf.valueString d.userName)]
         [{ severity := Severity.fatal, summary := "Read Error",
            detail := "Unable to read user: " ++ ("API returned status " ++ toString code) }]) := by
  refine ⟨fun body hb => ?_, fun msg hm => ?_, fun code body hb h2 h4 => ?_⟩
  · simp [Read, readUser, hb]
  · simp [Read, readUser, hm]
  · simp [Read, readUser, hb, h2, h4]

/-- Claim C8 witness: a 404 oracle makes Read remove the resource after
the single account fetch. -/
theorem read_notfound_distinct_witness :
    Read api404 aliceState = ReadResult.removed [ApiCall.getUser "alice"] :=
  (read_notfound_distinct api404 aliceState).1 none rfl

/-! 2FA gate helper lemmas. -/

theorem disableCond_state_true (data state : UserResourceModel)
    (h : disableCond data state = true) :
    state.requireTwoFactorAuthentication = Tf.value true := by
  unfold disableCond at h
  cases hs : state.requireTwoFactorAuthentication with
  | null => rw [hs] at h; simp [Tf.isNull] at h
  | unknown => rw [hs] at h; simp [Tf.valueBool] at h
  | value b =>
    cases b with
    | false => rw [hs] at h; simp [Tf.valueBool] at h
    | true => rfl

theorem enableCond_data_true (data state : UserResourceModel)
    (h : enableCond data state = true) :
    data.requireTwoFactorAuthentication = Tf.value true := by
  unfold enableCond at h
  cases hd : data.requireTwoFactorAuthentication with
  | null => rw [hd] at h; simp [Tf.isNull] at h
  | unknown => rw [hd] at h; simp [Tf.valueBool] at h
  | value b =>
    cases b with
    | false => rw [hd] at h; simp [Tf.valueBool] at h
    | true => rfl

theorem updateModifyReq_r2fa (data state : UserResourceModel) :
    (updateModifyReq data state).1.requireTwoFactorAuthentication = none := by
  simp only [updateModifyReq]
  split_ifs <;> rfl

theorem enableBody_r2fa_of_cond (data state : UserResourceModel)
    (h : enableCond data state = true) :
    (enableBody data).requireTwoFactorAuthentication = some true := by
  have hd := enableCond_data_true data state h
  simp [enableBody, hd, valueBoolPtr, Tf.isNull, Tf.isUnknown, Tf.valueBool]

/-! No stage of Update after the first ever issues a 2FA-disable
shaped modify call. -/

theorem updateFinish_no_disable (api : Api) (d : UserResourceModel) :
    (updateFinish api d).trace.filter is2faDisable = [] :=
  updateFinish_filter (fun _ => rfl) (fun _ => rfl) api d

theorem updateEnable_no_disable (api : Api) (data state : UserResourceModel) :
    (updateEnable api data state).trace.filter is2faDisable = [] := by
  by_cases hc : enableCond data state
  · have hb : is2faDisable (ApiCall.modifyUser (enableBody data)) = false := by
      simp [is2faDisable, enableBody_r2fa_of_cond data state hc]
    cases hresp : api.modifyUser (enableBody data) with
    | transportError msg => simp [updateEnable, hc, hresp, hb]
    | ok code body =>
      by_cases h2 : code = 200 <;>
        simp [updateEnable, hc, hresp, h2, hb, updateFinish_no_disable]
  · simp [updateEnable, hc, updateFinish_no_disable]

theorem updateMethods_no_disable (api : Api) (data state : UserResourceModel) :
    (updateMethods api data state).trace.filter is2faDisable = [] := by
  have hdelf := runDeletes_filter (P := is2faDisable) (fun _ => rfl) api
    (Tf.valueString data.userName) ((methodsOf data).map methodTarget) (methodsOf state)
  have hupsf := runUpserts_filter (P := is2faDisable) (fun _ => rfl) api
    (Tf.valueString data.userName) "Unable to upsert password reset method: "
    "Failed to upsert password reset method" (methodsOf data)
  simp only [updateMethods]
  cases hdel : runDeletes api (Tf.valueString data.userName)
      ((methodsOf data).map methodTarget) (methodsOf state) with
  | aborted tr d =>
    rw [hdel] at hdelf
    simp only [SeqOut.calls] at hdelf
    simp [hdelf]
  | done tr1 =>
    rw [hdel] at hdelf
    simp only [SeqOut.calls] at hdelf
    cases hups : runUpserts api (Tf.valueString data.userName)
        "Unable to upsert password reset method: "
        "Failed to upsert password reset method" (methodsOf data) with
    | aborted tr2 d =>
      rw [hups] at hupsf
      simp only [SeqOut.calls] at hupsf
      simp [List.filter_append, hdelf, hupsf]
    | done tr2 =>
      rw [hups] at hupsf
      simp only [SeqOut.calls] at hupsf
      simp [List.filter_append, hdelf, hupsf, updateEnable_no_disable]

theorem updateModify_no_disable (api : Api) (data state : UserResourceModel) :
    (updateModify api data state).trace.filter is2faDisable = [] := by
  have hb : is2faDisable (ApiCall.modifyUser (updateModifyReq data state).1) = false := by
    simp [is2faDisable, updateModifyReq_r2fa]
  by_cases hm : (updateModifyReq data state).2
  · cases hresp : api.modifyUser (updateModifyReq data state).1 with
    | transportError msg => simp [updateModify, hm, hresp, hb]
    | ok code body =>
      by_cases h2 : code = 200 <;>
        simp [updateModify, hm, hresp, h2, hb, updateMethods_no_disable]
  · simp [updateModify, hm, updateMethods_no_disable]

/-- Claim C4: when the observed 2FA flag is true and the desired flag
is false, the 2FA-disable modify call is the very first API call of the
Update invocation — in particular it precedes every recovery-method
delete; conversely, when the flag is not turning off, no 2FA-disabling
modify call is issued anywhere in the invocation. -/
theorem disable_first_ordering (api : Api) (data state : UserResourceModel) :
    (state.requireTwoFactorAuthentication = Tf.value true →
     data.requireTwoFactorAuthentication = Tf.value false →
     (Update api data state).trace.head? =
       some (ApiCall.modifyUser (disableBody data state))) ∧
    (¬(state.requireTwoFactorAuthentication = Tf.value true ∧
       data.requireTwoFactorAuthentication = Tf.value false) →
     (Update api data state).trace.filter is2faDisable = []) := by
  constructor
  · intro hs hd
    have hc : disableCond data state = true := by
      simp [disableCond, hs, hd, Tf.isNull, Tf.valueBool]
    cases hresp : api.modifyUser (disableBody data state) with
    | transportError msg => simp [Update, hc, hresp]
    | ok code body =>
      by_cases h2 : code = 200 <;> simp [Update, hc, hresp, h2]
  · intro hne
    by_cases hc : disableCond data state
    · have hs := disableCond_state_true data state hc
      have hd : data.requireTwoFactorAuthentication ≠ Tf.value false :=
        fun hdf => hne ⟨hs, hdf⟩
      have hb : is2faDisable (ApiCall.modifyUser (disableBody data state)) = false := by
        unfold disableCond at hc
        cases hdd : data.requireTwoFactorAuthentication with
        | null => rw [hdd] at hc; simp [Tf.isNull] at hc
        | unknown =>
          simp [is2faDisable, disableBody, valueBoolPtr, hdd, Tf.isNull, Tf.isUnknown]
        | value b =>
          cases b with
          | false => exact absurd hdd hd
          | true => rw [hdd] at hc; simp [Tf.valueBool] at hc
      cases hresp : api.modifyUser (disableBody data state) with
      | transportError msg => simp [Update, hc, hresp, hb]
      | ok code body =>
        by_cases h2 : code = 200 <;>
          simp [Update, hc, hresp, h2, hb, updateModify_no_disable]
    · simp [Update, hc, updateModify_no_disable]

/-- A `bob` snapshot with 2FA on and one method (Scenario B observed). -/
def bob2faOn : UserResourceModel :=
  { bobWith [methodA] with requireTwoFactorAuthentication := Tf.value true }

/-- A `bob` snapshot with 2FA off and no methods (Scenario B desired). -/
def bob2faOff : UserResourceModel :=
  { bobWith [] with requireTwoFactorAuthentication := Tf.value false }

/-- Claim C4 witness: Scenario B — turning 2FA off while draining the
method set issues the disable call first. -/
theorem disable_first_ordering_witness :
    (Update okApi bob2faOff bob2faOn).trace.head? =
      some (ApiCall.modifyUser (disableBody bob2faOff bob2faOn)) :=
  (disable_first_ordering okApi bob2faOff bob2faOn).1 rfl rfl

/-- Claim C5: with the desired 2FA flag true and the observed flag
false or absent, every upsert of the desired method set is issued
strictly before the single 2FA-enable modify call, and that enable call
is the last mutation of the sequence — for Converge-Create (observed
absent) and Converge-Update alike, on a run where every mutation
succeeds. -/
theorem enable_last_ordering (api : Api) (data state : UserResourceModel)
    (h : MutOk api) (hdes : data.requireTwoFactorAuthentication = Tf.value true) :
    ((Create api data).trace.filter isMutation =
      ApiCall.createUser (Tf.valueString data.userName) ::
        ((if (createModifyReq data).2 then
            [ApiCall.modifyUser (createModifyReq data).1] else []) ++
         (methodsOf data).map (upsertCall (Tf.valueString data.userName)) ++
         [ApiCall.modifyUser (enableBody data)])) ∧
    ((state.requireTwoFactorAuthentication = Tf.value false ∨
      state.requireTwoFactorAuthentication = Tf.null) →
     (Update api data state).trace.filter isMutation =
       (if (updateModifyReq data state).2 then
          [ApiCall.modifyUser (updateModifyReq data state).1] else []) ++
       (deleteCalls (postUserName data state)
          ((methodsOf data).map methodTarget) (methodsOf state) ++
        ((methodsOf data).map (upsertCall (postUserName data state)) ++
         [ApiCall.modifyUser (enableBody (dataAfterRename data state))]))) := by
  constructor
  · rw [create_mut_filter h]
    have hcc : createEnableCond data = true := by
      simp [createEnableCond, hdes, Tf.isNull, Tf.valueBool]
    simp [createMutationPlan, hcc]
  · intro hobs
    rw [update_mut_filter h]
    have hdis : disableCond data state = false := by
      simp [disableCond, hdes, Tf.valueBool]
    have hen : enableCond (dataAfterRename data state) state = true := by
      rcases hobs with hs | hs <;>
        simp [enableCond, dataAfterRename_r2fa, hdes, hs, Tf.isNull, Tf.valueBool]
    simp [updateMutationPlan, hdis, hen, postUserName, dataAfterRename_methods,
          List.append_assoc]

/-- The Scenario A desired snapshot: `alice`, 2FA required, one method. -/
def alice2fa : UserResourceModel :=
  { aliceState with requireTwoFactorAuthentication := Tf.value true }

/-- Claim C5 witness: Scenario A — create with 2FA and one method puts
the enable call after the upsert, as the last mutation. -/
theorem enable_last_ordering_witness :
    (Create okApi alice2fa).trace.filter isMutation =
      ApiCall.createUser (Tf.valueString alice2fa.userName) ::
        ((if (createModifyReq alice2fa).2 then
            [ApiCall.modifyUser (createModifyReq alice2fa).1] else []) ++
         (methodsOf alice2fa).map (upsertCall (Tf.valueString alice2fa.userName)) ++
         [ApiCall.modifyUser (enableBody alice2fa)]) :=
  (enable_last_ordering okApi alice2fa aliceState mutOk_okApi rfl).1

/-- Claim C1 counterexample: with the desired snapshot equal to the
observed snapshot and a single (unchanged) recovery method, the Update
run on an all-success oracle still issues a mutation call — the
re-upsert of the unchanged method — so the zero-mutation claim fails. -/
theorem update_identical_reupserts_cex :
    ¬((Update okApi aliceState aliceState).trace.filter isMutation = []) := by
  have h : (Update okApi aliceState aliceState).trace.filter isMutation =
      [upsertCall "alice" sampleMethod] := rfl
  rw [h]
  simp

/-- Claim C1 amended: a Converge-Update whose desired snapshot equals
the observed snapshot issues zero mutation calls — only the re-fetch
calls — provided additionally that the snapshot carries no credential
(`password_wo` and `password` null), no search-indexing value, no
rename, and an empty recovery-method set.  (Without those provisos the
code re-sends the combined modify and re-upserts every desired method.) -/
theorem update_identical_bare_no_mutations (api : Api) (d : UserResourceModel)
    (hpwo : d.passwordWo = Tf.null) (hpw : d.password = Tf.null)
    (hsi : d.enableSearchIndexing = Tf.null) (hnun : d.newUserName = Tf.null)
    (hm : methodsOf d = []) :
    (Update api d d).trace.filter isMutation = [] := by
  have hdis : disableCond d d = false := by
    cases hr : d.requireTwoFactorAuthentication with
    | null => simp [disableCond, hr, Tf.isNull]
    | unknown => simp [disableCond, hr, Tf.valueBool]
    | value b => cases b <;> simp [disableCond, hr, Tf.isNull, Tf.valueBool]
  have hen : enableCond (dataAfterRename d d) d = false := by
    cases hr : d.requireTwoFactorAuthentication with
    | null => simp [enableCond, dataAfterRename_r2fa, hr, Tf.isNull]
    | unknown => simp [enableCond, dataAfterRename_r2fa, hr, Tf.isNull, Tf.valueBool]
    | value b => cases b <;> simp [enableCond, dataAfterRename_r2fa, hr, Tf.isNull, Tf.valueBool]
  have hmr : (updateModifyReq d d).2 = false := by
    simp [updateModifyReq, renameCond, hpwo, hpw, hsi, hnun, Tf.isNull]
  have hmd : methodsOf (dataAfterRename d d) = [] := by
    rw [dataAfterRename_methods]; exact hm
  have hfin : ∀ dd, (updateFinish api dd).trace.filter isMutation = [] :=
    fun dd => updateFinish_filter (fun _ => rfl) (fun _ => rfl) api dd
  simp [Update, hdis, updateModify, hmr, updateMethods, hmd, hm,
        runDeletes, runUpserts, updateEnable, hen, hfin]

/-- Claim C1 amended witness: the all-null `alice` snapshot converges
with zero mutation calls. -/
theorem update_identical_bare_no_mutations_witness :
    (Update okApi aliceBare aliceBare).trace.filter isMutation = [] :=
  update_identical_bare_no_mutations okApi aliceBare rfl rfl rfl rfl rfl

/-- Claim C2 counterexample: with observed `{a, b}` and desired
`{a', b, c}` — `a'` sharing `a`'s target with a changed description —
the executed plan does contain an operation whose target is `b`'s
target (the re-upsert of the unchanged `b`), refuting the
"zero operations touching b" part of the claim. -/
theorem differ_touches_unchanged_cex :
    ¬(((Update okApi (bobWith [methodA', methodB, methodC])
          (bobWith [methodA, methodB])).trace.filter
        (fun call => methodOpTarget call = some "b@x.com")) = []) := by
  have h : ((Update okApi (bobWith [methodA', methodB, methodC])
      (bobWith [methodA, methodB])).trace.filter
        (fun call => methodOpTarget call = some "b@x.com")) =
      [upsertCall "bob" methodB] := rfl
  rw [h]
  simp

/-- Claim C2 amended: for observed `{a, b}` and desired `{a', b, c}`
with `a'` sharing `a`'s target but a different description (all three
targets distinct), the executed plan contains exactly one upsert for
the a/a' target, exactly one upsert for c's target, and no delete for
b's target — but, the differ not being minimal, also exactly one upsert
for b's target: the plan is precisely the three upserts, in desired
order, with no delete at all. -/
theorem differ_upserts_all_desired (api : Api) (data state : UserResourceModel)
    (a b c a' : PasswordResetMethodModel) (h : MutOk api)
    (hobs : state.passwordResetMethods = Tf.value [a, b])
    (hdes : data.passwordResetMethods = Tf.value [a', b, c])
    (hTa : methodTarget a' = methodTarget a)
    (_hdesc : a'.description ≠ a.description)
    (_hab : methodTarget a ≠ methodTarget b)
    (_hac : methodTarget a ≠ methodTarget c)
    (_hbc : methodTarget b ≠ methodTarget c) :
    (Update api data state).trace.filter isMethodOp =
      [upsertCall (postUserName data state) a',
       upsertCall (postUserName data state) b,
       upsertCall (postUserName data state) c] := by
  rw [update_method_ops h]
  have hm1 : methodsOf data = [a', b, c] := by simp [methodsOf, hdes]
  have hm2 : methodsOf state = [a, b] := by simp [methodsOf, hobs]
  rw [hm1, hm2]
  simp [deleteCalls, hTa]

/-- Claim C2 amended witness at the concrete a/a'/b/c methods. -/
theorem differ_upserts_all_desired_witness :
    (Update okApi (bobWith [methodA', methodB, methodC])
        (bobWith [methodA, methodB])).trace.filter isMethodOp =
      [upsertCall (postUserName (bobWith [methodA', methodB, methodC])
          (bobWith [methodA, methodB])) methodA',
       upsertCall (postUserName (bobWith [methodA', methodB, methodC])
          (bobWith [methodA, methodB])) methodB,
       upsertCall (postUserName (bobWith [methodA', methodB, methodC])
          (bobWith [methodA, methodB])) methodC] :=
  differ_upserts_all_desired okApi (bobWith [methodA', methodB, methodC])
    (bobWith [methodA, methodB]) methodA methodB methodC methodA' mutOk_okApi
    rfl rfl rfl (by decide) (by decide) (by decide) (by decide)

/-- Claim C7 counterexample: all mutation steps succeed, yet the final
re-fetch's listRecoveryMethods call returns an error (status 500) and
the result carries no warning at all — the diagnostics are empty — so
the claim that every failing re-fetch yields a non-fatal warning is
false.  (The state produced by the mutations is still recorded.) -/
theorem refetch_list_failure_silent_cex :
    badListApi.createUser "alice" = HttpResp.ok 200 none ∧
    badListApi.upsertMethod (upsertReqOf "alice" sampleMethod) = HttpResp.ok 200 none ∧
    badListApi.listMethods "alice" = HttpResp.ok 500 none ∧
    (Create badListApi aliceState).diags = [] ∧
    (Create badListApi aliceState).state.isSome = true ∧
    (Update badListApi aliceState aliceState).diags = [] ∧
    (Update badListApi aliceState aliceState).state.isSome = true :=
  ⟨rfl, rfl, rfl, rfl, rfl, rfl, rfl⟩

/-- Claim C7 amended: when every mutation step of Converge-Create or
Converge-Update succeeds and the re-fetch fails, no fatal error is ever
reported and the state produced by the mutations is always recorded;
the failure is reported as exactly one non-fatal warning when the
re-fetch surfaces it (a getAccount transport error, a getAccount status
other than 200/404, an undecodable account body, or a
listRecoveryMethods transport error), while a getAccount 404 and a
listRecoveryMethods non-success status or undecodable body are silently
ignored — no warning at all, state still recorded. -/
theorem refetch_failure_warning_or_silent (api : Api) (data state : UserResourceModel)
    (h : MutOk api) :
    (∀ msg, (∀ u, api.getUser u = HttpResp.transportError msg) →
       (Create api data).diags =
         [{ severity := Severity.warning, summary := "Read Warning",
            detail := "Created user but unable to read back: " ++
              ("unable to read user: " ++ msg) }] ∧
       (Create api data).state.isSome = true ∧
       (Update api data state).diags =
         [{ severity := Severity.warning, summary := "Read Warning",
            detail := "Updated user but unable to read back: " ++
              ("unable to read user: " ++ msg) }] ∧
       (Update api data state).state.isSome = true) ∧
    (∀ code bd, code ≠ 200 → code ≠ 404 → (∀ u, api.getUser u = HttpResp.ok code bd) →
       (Create api data).diags =
         [{ severity := Severity.warning, summary := "Read Warning",
            detail := "Created user but unable to read back: " ++
              ("API returned status " ++ toString code) }] ∧
       (Create api data).state.isSome = true ∧
       (Update api data state).diags =
         [{ severity := Severity.warning, summary := "Read Warning",
            detail := "Updated user but unable to read back: " ++
              ("API returned status " ++ toString code) }] ∧
       (Update api data state).state.isSome = true) ∧
    ((∀ u, api.getUser u = HttpResp.ok 200 none) →
       (Create api data).diags =
         [{ severity := Severity.warning, summary := "Read Warning",
            detail := "Created user but unable to read back: " ++
              "unable to decode user response" }] ∧
       (Create api data).state.isSome = true ∧
       (Update api data state).diags =
         [{ severity := Severity.warning, summary := "Read Warning",
            detail := "Updated user but unable to read back: " ++
              "unable to decode user response" }] ∧
       (Update api data state).state.isSome = true) ∧
    (∀ bd, (∀ u, api.getUser u = HttpResp.ok 404 bd) →
       (Create api data).diags = [] ∧
       (Create api data).state.isSome = true ∧
       (Update api data state).diags = [] ∧
       (Update api data state).state.isSome = true) ∧
    (∀ resp msg, (∀ u, api.getUser u = HttpResp.ok 200 (some resp)) →
       (∀ u, api.listMethods u = HttpResp.transportError msg) →
       (Create api data).diags =
         [{ severity := Severity.warning, summary := "Read Warning",
            detail := "Created user but unable to read back: " ++
              ("unable to list password reset methods: " ++ msg) }] ∧
       (Create api data).state.isSome = true ∧
       (Update api data state).diags =
         [{ severity := Severity.warning, summary := "Read Warning",
            detail := "Updated user but unable to read back: " ++
              ("unable to list password reset methods: " ++ msg) }] ∧
       (Update api data state).state.isSome = true) ∧
    (∀ resp code bd, code ≠ 200 → (∀ u, api.getUser u = HttpResp.ok 200 (some resp)) →
       (∀ u, api.listMethods u = HttpResp.ok code bd) →
       (Create api data).diags = [] ∧
       (Create api data).state.isSome = true ∧
       (Update api data state).diags = [] ∧
       (Update api data state).state.isSome = true) ∧
    (∀ resp, (∀ u, api.getUser u = HttpResp.ok 200 (some resp)) →
       (∀ u, api.listMethods u = HttpResp.ok 200 none) →
       (Create api data).diags = [] ∧
       (Create api data).state.isSome = true ∧
       (Update api data state).diags = [] ∧
       (Update api data state).state.isSome = true) := by
  have hc := create_ok_decomp h data
  have hu := update_ok_decomp h data state
  refine ⟨fun msg hg => ?_, fun code bd h2 h4 hg => ?_, fun hg => ?_, fun bd hg => ?_,
          fun resp msg hg hl => ?_, fun resp code bd hcode hg hl => ?_, fun resp hg hl => ?_⟩
  · rw [hc, hu]; simp [createFinish, updateFinish, readBackFinish, readUser, hg]
  · rw [hc, hu]; simp [createFinish, updateFinish, readBackFinish, readUser, hg, h2, h4]
  · rw [hc, hu]; simp [createFinish, updateFinish, readBackFinish, readUser, hg]
  · rw [hc, hu]; simp [createFinish, updateFinish, readBackFinish, readUser, hg]
  · rw [hc, hu]; simp [createFinish, updateFinish, readBackFinish, readUser, hg, hl]
  · rw [hc, hu]; simp [createFinish, updateFinish, readBackFinish, readUser, hg, hl, hcode]
  · rw [hc, hu]; simp [createFinish, updateFinish, readBackFinish, readUser, hg, hl]

/-- Claim C7 amended witness: on the failing-account-fetch oracle,
Create and Update of `alice` warn once and still record state. -/
theorem refetch_failure_warning_or_silent_witness :
    (Create failGetApi aliceState).diags =
      [{ severity := Severity.warning, summary := "Read Warning",
         detail := "Created user but unable to read back: " ++
           ("unable to read user: " ++ "boom") }] ∧
    (Create failGetApi aliceState).state.isSome = true ∧
    (Update failGetApi aliceState aliceState).diags =
      [{ severity := Severity.warning, summary := "Read Warning",
         detail := "Updated user but unable to read back: " ++
           ("unable to read user: " ++ "boom") }] ∧
    (Update failGetApi aliceState aliceState).state.isSome = true :=
  (refetch_failure_warning_or_silent failGetApi aliceState aliceState
    mutOk_failGetApi).1 "boom" (fun _ => rfl)

/-- Claim C9 counterexample: the method-list call returning status 500
during Converge-Read produces no error and no warning at all — the Read
keeps the resource as if nothing failed — so the no-silently-ignored-
failure claim fails for the listRecoveryMethods step. -/
theorem list_failure_silent_cex :
    badListApi.listMethods "alice" = HttpResp.ok 500 none ∧
    (Read badListApi aliceState).diags = [] ∧
    (Read badListApi aliceState).isKept = true :=
  ⟨rfl, rfl, rfl⟩

/-- Claim C9 amended: the failure handling of state re-synchronization
(`readUser`), exhaustively: a transport error on the account fetch, an
account status other than 200/404, an undecodable account body, and a
transport error on the method-list call are each surfaced as an error
naming the failed step; an account 404 is the distinct not-found
outcome (no error); but a non-success status or an undecodable body on
the method-list call is silently ignored — `readUser` returns success
with the method list left exactly as it was. -/
theorem resync_failure_handling (api : Api) (d : UserResourceModel) :
    (∀ msg, api.getUser (Tf.valueString d.userName) = HttpResp.transportError msg →
       readUser api d = ReadUserOut.fail [ApiCall.getUser (Tf.valueString d.userName)]
         ("unable to read user: " ++ msg) d) ∧
    (∀ code bd, api.getUser (Tf.valueString d.userName) = HttpResp.ok code bd →
       code ≠ 200 → code ≠ 404 →
       readUser api d = ReadUserOut.fail [ApiCall.getUser (Tf.valueString d.userName)]
         ("API returned status " ++ toString code) d) ∧
    (api.getUser (Tf.valueString d.userName) = HttpResp.ok 200 none →
       readUser api d = ReadUserOut.fail [ApiCall.getUser (Tf.valueString d.userName)]
         "unable to decode user response" d) ∧
    (∀ bd, api.getUser (Tf.valueString d.userName) = HttpResp.ok 404 bd →
       readUser api d = ReadUserOut.notFound [ApiCall.getUser (Tf.valueString d.userName)] d) ∧
    (∀ resp msg, api.getUser (Tf.valueString d.userName) = HttpResp.ok 200 (some resp) →
       api.listMethods (Tf.valueString d.userName) = HttpResp.transportError msg →
       readUser api d = ReadUserOut.fail
         [ApiCall.getUser (Tf.valueString d.userName),
          ApiCall.listPasswordResetMethods (Tf.valueString d.userName)]
         ("unable to list password reset methods: " ++ msg) (applyGetUser d resp)) ∧
    (∀ resp code bd, api.getUser (Tf.valueString d.userName) = HttpResp.ok 200 (some resp) →
       api.listMethods (Tf.valueString d.userName) = HttpResp.ok code bd → code ≠ 200 →
       readUser api d = ReadUserOut.ok
         [ApiCall.getUser (Tf.valueString d.userName),
          ApiCall.listPasswordResetMethods (Tf.valueString d.userName)]
         (applyGetUser d resp)) ∧
    (∀ resp, api.getUser (Tf.valueString d.userName) = HttpResp.ok 200 (some resp) →
       api.listMethods (Tf.valueString d.userName) = HttpResp.ok 200 none →
       readUser api d = ReadUserOut.ok
         [ApiCall.getUser (Tf.valueString d.userName),
          ApiCall.listPasswordResetMethods (Tf.valueString d.userName)]
         (applyGetUser d resp)) := by
  refine ⟨fun msg hm => ?_, fun code bd hb h2 h4 => ?_, fun hb => ?_, fun bd hb => ?_,
          fun resp msg hg hl => ?_, fun resp code bd hg hl hcode => ?_, fun resp hg hl => ?_⟩
  · simp [readUser, hm]
  · simp [readUser, hb, h2, h4]
  · simp [readUser, hb]
  · simp [readUser, hb]
  · simp [readUser, hg, hl]
  · simp [readUser, hg, hl, hcode]
  · simp [readUser, hg, hl]

/-- Claim C9 amended witness: the 500-status list oracle makes
`readUser` succeed silently with the stale method list. -/
theorem resync_failure_handling_witness :
    readUser badListApi aliceState = ReadUserOut.ok
      [ApiCall.getUser "alice", ApiCall.listPasswordResetMethods "alice"]
      (applyGetUser aliceState okGetBody) :=
  (resync_failure_handling badListApi aliceState).2.2.2.2.2.1
    okGetBody 500 none rfl rfl (by decide)

end Purelymail


